import Mathlib

/-!
Verification of the IMDB sentiment-classification notebook (RNN.ipynb).

The notebook is a straight-line script: it loads the IMDB dataset, pads the
integer-encoded reviews, builds four recurrent models (SimpleRNN, LSTM, GRU,
LSTM with Attention), trains each with Adam / binary cross-entropy /
early stopping, evaluates each on the test set, and prints loss and accuracy.

This file embeds, directly from the notebook source:
  * the preprocessing functions (keras `pad_sequences` with its default
    arguments, `imdb.load_data` with `num_words`),
  * the layer graphs produced by `build_model` and `build_model2`, with shape
    inference and parameter counting following the layer definitions,
  * the notebook itself as a list of script steps with a small-step state
    semantics (training and evaluation outcomes are oracle parameters, since
    their numeric values are produced by the framework),
  * the epoch loop of `fit` with the `EarlyStopping(monitor='val_loss',
    patience=2)` callback.
-/

namespace RNNIMDB

/-- `VOCAB_SIZE = 10000` from the notebook's constants cell. -/
def VOCAB_SIZE : Nat := 10000

/-- `MAXLEN = 500` from the notebook's constants cell. -/
def MAXLEN : Nat := 500

/-- `BATCH_SIZE = 64` from the notebook's constants cell. -/
def BATCH_SIZE : Nat := 64

/-- keras `sequence.pad_sequences` applied to one row, with the default
arguments used in the notebook: `padding='pre'`, `truncating='pre'`,
`value=0`.  A row not shorter than `maxlen` keeps its last `maxlen` tokens;
a shorter row is left-padded with zeros up to `maxlen`. -/
def pad_sequences (maxlen : Nat) (xs : List Nat) : List Nat :=
  if maxlen ≤ xs.length then xs.drop (xs.length - maxlen)
  else List.replicate (maxlen - xs.length) 0 ++ xs

/-- `sequence.pad_sequences` on the whole array (row by row). -/
def pad_all (maxlen : Nat) (xss : List (List Nat)) : List (List Nat) :=
  xss.map (pad_sequences maxlen)

/-- `imdb.load_data` replaces every word index that is not below `num_words`
by the out-of-vocabulary character, which is `2` by default. -/
def oov_char : Nat := 2

/-- One word under `imdb.load_data(num_words=...)`: kept if below the
vocabulary bound, replaced by `oov_char` otherwise. -/
def load_word (num_words w : Nat) : Nat :=
  if w < num_words then w else oov_char

/-- `imdb.load_data(num_words=...)` on the stored integer-encoded reviews. -/
def load_data (num_words : Nat) (raw : List (List Nat)) : List (List Nat) :=
  raw.map (fun ws => ws.map (load_word num_words))

/-- The three recurrent cell classes used by the notebook. -/
inductive RnnCellKind
  | simpleRNN
  | lstm
  | gru
deriving DecidableEq

/-- Keras layers appearing in the notebook.  `dense` keeps its activation
as the string passed in the source (`'sigmoid'`). -/
inductive LayerOp
  | inputL (len : Nat)
  | embedding (inputDim outputDim : Nat)
  | rnn (cell : RnnCellKind) (units : Nat) (returnSequences : Bool)
  | attention
  | flatten
  | dense (units : Nat) (activation : String)
deriving DecidableEq

/-- A node of a layer graph: the layer, the indices of the nodes whose
outputs it consumes, and the keras `trainable` flag (defaulting to true,
never overridden in the notebook). -/
structure Node where
  op : LayerOp
  inputs : List Nat
  trainable : Bool
deriving DecidableEq

/-- Per-batch-element output shape of a layer given the shapes of its
inputs, following the keras layer semantics used in the notebook. -/
def outShape (op : LayerOp) (ins : List (List Nat)) : Option (List Nat) :=
  match op, ins with
  | .inputL n, [] => some [n]
  | .embedding _ d, [[t]] => some [t, d]
  | .rnn _ u rs, [[t, _]] => some (if rs then [t, u] else [u])
  | .attention, [[tq, dq], [_, dv]] => if dq = dv then some [tq, dv] else none
  | .flatten, [s] => some [s.prod]
  | .dense u _, [s] => if s = [] then none else some (s.dropLast ++ [u])
  | _, _ => none

/-- Weight count of a layer given the shapes of its inputs.  The recurrent
counts follow the keras kernels: SimpleRNN has kernel `d×u`, recurrent
kernel `u×u` and bias `u`; LSTM has four such gates; GRU (with the default
`reset_after=True`) has three gates with doubled bias. -/
def paramCountOp (op : LayerOp) (ins : List (List Nat)) : Nat :=
  match op with
  | .inputL _ => 0
  | .embedding v d => v * d
  | .rnn cell u _ =>
      let d := (ins.headD []).getLastD 0
      match cell with
      | .simpleRNN => (d + u) * u + u
      | .lstm => 4 * ((d + u) * u + u)
      | .gru => 3 * ((d + u) * u + 2 * u)
  | .attention => 0
  | .flatten => 0
  | .dense u _ => (ins.headD []).getLastD 0 * u + u

/-- Walk a layer graph accumulating each node's inferred output shape. -/
def shapesAux (acc : List (Option (List Nat))) : List Node → List (Option (List Nat))
  | [] => acc
  | n :: rest =>
      let ins : Option (List (List Nat)) := n.inputs.mapM (fun i => acc.getD i none)
      shapesAux (acc ++ [ins >>= outShape n.op]) rest

/-- The inferred output shape of every node of a layer graph, in order. -/
def nodeShapes (g : List Node) : List (Option (List Nat)) :=
  shapesAux [] g

/-- Walk a layer graph accumulating each node's weight count (`none` if
shape inference fails somewhere). -/
def paramsAux (acc : List (Option (List Nat))) (ps : List Nat) :
    List Node → Option (List Nat)
  | [] => some ps.reverse
  | n :: rest =>
      match n.inputs.mapM (fun i => acc.getD i none) with
      | none => none
      | some ins =>
          paramsAux (acc ++ [outShape n.op ins]) (paramCountOp n.op ins :: ps) rest

/-- The weight count of every node of a layer graph, in order. -/
def paramsList (g : List Node) : Option (List Nat) :=
  paramsAux [] [] g

/-- Total weight count of a layer graph (`model.summary()`'s Total params). -/
def totalParams (g : List Node) : Option Nat :=
  (paramsList g).map List.sum

/-- Walk a layer graph accumulating the weight counts of trainable nodes. -/
def trainableAux (acc : List (Option (List Nat))) (ps : List Nat) :
    List Node → Option (List Nat)
  | [] => some ps.reverse
  | n :: rest =>
      match n.inputs.mapM (fun i => acc.getD i none) with
      | none => none
      | some ins =>
          trainableAux (acc ++ [outShape n.op ins])
            ((if n.trainable then paramCountOp n.op ins else 0) :: ps) rest

/-- Total trainable weight count (`model.summary()`'s Trainable params). -/
def trainableParams (g : List Node) : Option Nat :=
  (trainableAux [] [] g).map List.sum

/-- Compilation arguments of `model.compile`. -/
structure CompileCfg where
  optimizer : String
  loss : String
  metrics : List String
deriving DecidableEq

/-- A built keras model: its layer graph and its compile configuration. -/
structure ModelSpec where
  graph : List Node
  cfg : CompileCfg
deriving DecidableEq

/-- The compile arguments shared by both builder functions in the notebook:
`optimizer='adam'`, `loss='binary_crossentropy'`, `metrics=['accuracy']`. -/
def adam_bce_acc : CompileCfg :=
  ⟨"adam", "binary_crossentropy", ["accuracy"]⟩

/-- `build_model(rnn_cell)` from the notebook: Sequential
`[Embedding(VOCAB_SIZE, 32), rnn_cell(32), Dense(1, activation='sigmoid')]`,
compiled with adam / binary cross-entropy / accuracy. -/
def build_model (cell : RnnCellKind) : ModelSpec :=
  ⟨[⟨.embedding VOCAB_SIZE 32, [], true⟩,
    ⟨.rnn cell 32 false, [0], true⟩,
    ⟨.dense 1 "sigmoid", [1], true⟩],
   adam_bce_acc⟩

/-- `build_model2(rnn_cell, rnn_units)` from the notebook (functional API):
Input(500) → Embedding(10000, units) → rnn_cell(units, return_sequences=True)
→ Attention()([rnn_output, rnn_output]) → Flatten → Dense(1, 'sigmoid'),
compiled with adam / binary cross-entropy / accuracy.  The attention node
consumes the rnn output twice: as query and as value. -/
def build_model2 (cell : RnnCellKind) (rnn_units : Nat) : ModelSpec :=
  ⟨[⟨.inputL MAXLEN, [], true⟩,
    ⟨.embedding VOCAB_SIZE rnn_units, [0], true⟩,
    ⟨.rnn cell rnn_units true, [1], true⟩,
    ⟨.attention, [2, 2], true⟩,
    ⟨.flatten, [3], true⟩,
    ⟨.dense 1 "sigmoid", [4], true⟩],
   adam_bce_acc⟩

/-- Output shape of a Sequential stack of layers on a given input shape,
threading each layer's output into the next. -/
def sequentialOutShape (inShape : List Nat) (ops : List LayerOp) : Option (List Nat) :=
  ops.foldl (fun acc op => acc >>= fun sh => outShape op [sh]) (some inShape)

/-- The four model variables of the notebook. -/
inductive ModelId
  | rnn
  | lstm
  | gru
  | lstmAttention
deriving DecidableEq

/-- `tf.keras.callbacks.EarlyStopping(monitor=..., patience=...)`. -/
structure ESCallback where
  monitor : String
  patience : Nat
deriving DecidableEq

/-- `callback = EarlyStopping(monitor='val_loss', patience=2)` of the
notebook. -/
def callback : ESCallback :=
  ⟨"val_loss", 2⟩

/-- The keyword arguments of a `model.fit` call. -/
structure FitCfg where
  epochs : Nat
  batch_size : Nat
  validation_split : Rat
  callbacks : List ESCallback
deriving DecidableEq

/-- The fit arguments used by every `fit` call of the notebook:
`epochs=10, batch_size=BATCH_SIZE, validation_split=0.2,
callbacks=[callback]`. -/
def fitCfg : FitCfg :=
  ⟨10, BATCH_SIZE, 1 / 5, [callback]⟩

/-- One top-level statement of the notebook script. -/
inductive Step
  | loadData
  | padSeqs
  | buildModel (m : ModelId)
  | fitModel (m : ModelId) (cfg : FitCfg)
  | evalModel (m : ModelId)
  | printResults (m : ModelId)
  | summary (m : ModelId)
deriving DecidableEq

/-- The notebook's code cells, statement by statement, in source order. -/
def notebookScript : List Step :=
  [.loadData, .padSeqs,
   .buildModel .rnn, .buildModel .lstm, .buildModel .gru,
   .fitModel .rnn fitCfg, .evalModel .rnn, .printResults .rnn,
   .fitModel .lstm fitCfg, .evalModel .lstm, .printResults .lstm,
   .fitModel .gru fitCfg, .evalModel .gru, .printResults .gru,
   .buildModel .lstmAttention, .summary .lstmAttention,
   .fitModel .lstmAttention fitCfg, .evalModel .lstmAttention,
   .printResults .lstmAttention]

/-- What a `fit` call received: the data and labels it read and its
configuration.  keras `fit` consumes its argument arrays without mutating
them, so recording them captures its effect on the script state. -/
structure TrainRecord where
  data : Option (List (List Nat))
  labels : Option (List Nat)
  cfg : FitCfg

/-- What an `evaluate` call received and returned: the arrays it read and
its returned metric list (`[loss] ++ metric values`). -/
structure EvalRecord where
  data : Option (List (List Nat))
  labels : Option (List Nat)
  results : List Rat

/-- One printed metrics line: the value shown as `Test Loss` (`results[0]`
in the source) and the value shown as `Test Accuracy` (`results[1]`). -/
structure PrintRecord where
  lossShown : Rat
  accShown : Rat

/-- The environment of a notebook run: the stored dataset, and an oracle
for the numeric outcomes of training/evaluation (loss value and the value
of each compiled metric), which the framework computes. -/
structure Env where
  raw_train : List (List Nat)
  raw_test : List (List Nat)
  y_train_raw : List Nat
  y_test_raw : List Nat
  lossOf : ModelId → Rat
  metricOf : ModelId → String → Rat

/-- The notebook's variables: `none` means not yet assigned.  `fitRec` and
`evalRec` are the histories/results variables (`history`, `history_LSTM`,
`history_GRU`, `history_`, `results`, `results_LSTM`, `results_GRU`,
`results_`), indexed by the model they belong to; `printed` is the
sequence of metric lines written to stdout, in order. -/
structure NotebookState where
  input_train : Option (List (List Nat))
  input_test : Option (List (List Nat))
  y_train : Option (List Nat)
  y_test : Option (List Nat)
  rnn_model : Option ModelSpec
  lstm_model : Option ModelSpec
  gru_model : Option ModelSpec
  lstm_model_with_attention : Option ModelSpec
  fitRec : ModelId → Option TrainRecord
  evalRec : ModelId → Option EvalRecord
  printed : List (ModelId × PrintRecord)

/-- The model variable belonging to a `ModelId`. -/
def modelVar (s : NotebookState) : ModelId → Option ModelSpec
  | .rnn => s.rnn_model
  | .lstm => s.lstm_model
  | .gru => s.gru_model
  | .lstmAttention => s.lstm_model_with_attention

/-- The builder call the notebook uses for each model variable. -/
def modelFor : ModelId → ModelSpec
  | .rnn => build_model .simpleRNN
  | .lstm => build_model .lstm
  | .gru => build_model .gru
  | .lstmAttention => build_model2 .lstm 32

/-- Assign a built model to its variable. -/
def setModel (s : NotebookState) (m : ModelId) (sp : ModelSpec) : NotebookState :=
  match m with
  | .rnn => { s with rnn_model := some sp }
  | .lstm => { s with lstm_model := some sp }
  | .gru => { s with gru_model := some sp }
  | .lstmAttention => { s with lstm_model_with_attention := some sp }

/-- The state before the first cell runs: nothing assigned. -/
def initState : NotebookState :=
  ⟨none, none, none, none, none, none, none, none,
   fun _ => none, fun _ => none, []⟩

/-- The list `model.evaluate` returns: the loss first, then one value per
compiled metric, in the compiled order. -/
def evalResults (env : Env) (s : NotebookState) (m : ModelId) : List Rat :=
  env.lossOf m ::
    (match modelVar s m with
     | some sp => sp.cfg.metrics.map (env.metricOf m)
     | none => [])

/-- Effect of one script statement on the notebook state.  Loading and
padding assign the data variables; building assigns a model variable;
`fit` reads the current training arrays (without modifying any variable
other than its history); `evaluate` reads the current test arrays and
stores the returned metric list; the print statement formats
`results[0]` as the loss and `results[1]` as the accuracy. -/
def runStep (env : Env) (s : NotebookState) : Step → NotebookState
  | .loadData =>
      { s with input_train := some (load_data VOCAB_SIZE env.raw_train),
               input_test := some (load_data VOCAB_SIZE env.raw_test),
               y_train := some env.y_train_raw,
               y_test := some env.y_test_raw }
  | .padSeqs =>
      { s with input_train := s.input_train.map (pad_all MAXLEN),
               input_test := s.input_test.map (pad_all MAXLEN) }
  | .buildModel m => setModel s m (modelFor m)
  | .fitModel m cfg =>
      { s with fitRec := fun x =>
          if x = m then some ⟨s.input_train, s.y_train, cfg⟩ else s.fitRec x }
  | .evalModel m =>
      { s with evalRec := fun x =>
          if x = m then some ⟨s.input_test, s.y_test, evalResults env s m⟩
          else s.evalRec x }
  | .printResults m =>
      let rs : List Rat := ((s.evalRec m).map EvalRecord.results).getD []
      { s with printed := s.printed ++ [(m, ⟨rs.getD 0 0, rs.getD 1 0⟩)] }
  | .summary _ => s

/-- Run the whole notebook from the empty state. -/
def runScript (env : Env) : NotebookState :=
  notebookScript.foldl (runStep env) initState

/-- The improvement test of `EarlyStopping` with the default `min_delta=0`
and the `less` comparison for `val_loss`: any value improves on the
initial infinite best; afterwards only a strict decrease improves. -/
def improvesOn (best : Option Rat) (cur : Rat) : Bool :=
  match best with
  | none => true
  | some b => decide (cur < b)

/-- The epoch loop of `model.fit` under an `EarlyStopping` callback, given
the monitored validation loss of each epoch.  State: epochs completed so
far, the callback's best monitored value, and its wait counter.  After
each epoch the callback resets the counter on improvement; otherwise it
increments it and stops training once it reaches the patience.  Returns
the number of epochs actually run.  The starting `best` is a parameter:
the notebook reuses one callback object for all four fits, and keras 3
sets `best` only once (in `_set_monitor_op`, on the first epoch ever) and
resets only the wait counter at `on_train_begin`, so fits after the first
start from the best value the earlier fits reached. -/
def esLoop (f : Nat → Rat) (patience : Nat) : Nat → Nat → Option Rat → Nat → Nat
  | 0, epoch, _, _ => epoch
  | fuel + 1, epoch, best, wait =>
      if improvesOn best (f epoch) then
        esLoop f patience fuel (epoch + 1) (some (f epoch)) 0
      else
        if patience ≤ wait + 1 then epoch + 1
        else esLoop f patience fuel (epoch + 1) best (wait + 1)

/-- The callback's best monitored value when the fit ends: same loop as
`esLoop`, returning the final best (only updated at improving epochs). -/
def esBest (f : Nat → Rat) (patience : Nat) : Nat → Nat → Option Rat → Nat → Option Rat
  | 0, _, best, _ => best
  | fuel + 1, epoch, best, wait =>
      if improvesOn best (f epoch) then
        esBest f patience fuel (epoch + 1) (some (f epoch)) 0
      else
        if patience ≤ wait + 1 then best
        else esBest f patience fuel (epoch + 1) best (wait + 1)

/-- Number of epochs `fit(epochs=..., callbacks=[EarlyStopping(...,
patience=...)])` actually runs, given the callback's carried-in best value
and each epoch's validation loss. -/
def epochsRunFrom (b₀ : Option Rat) (epochs patience : Nat) (f : Nat → Rat) : Nat :=
  esLoop f patience epochs 0 b₀ 0

/-- Epochs run by a `fit` call of the notebook: its `epochs` bound, the
patience of its (single) early-stopping callback, and the best value the
reused callback carries in from earlier fits. -/
def fitEpochsRunFrom (b₀ : Option Rat) (cfg : FitCfg) (f : Nat → Rat) : Nat :=
  match cfg.callbacks with
  | [] => cfg.epochs
  | cb :: _ => epochsRunFrom b₀ cfg.epochs cb.patience f

/-- The reused callback's best value after a `fit` call of the notebook. -/
def fitBestAfter (b₀ : Option Rat) (cfg : FitCfg) (f : Nat → Rat) : Option Rat :=
  match cfg.callbacks with
  | [] => b₀
  | cb :: _ => esBest f cb.patience cfg.epochs 0 b₀ 0

/-- Best (smallest) monitored value before epoch `e`: the carried-in best
`b₀` folded with the monitored values of the epochs before `e`. -/
def bestFrom (b₀ : Option Rat) (f : Nat → Rat) : Nat → Option Rat
  | 0 => b₀
  | e + 1 =>
      match bestFrom b₀ f e with
      | none => some (f e)
      | some b => some (min b (f e))

/-- Whether epoch `e`'s validation loss improves on the callback's best,
starting from the carried-in best `b₀`. -/
def improvedFrom (b₀ : Option Rat) (f : Nat → Rat) (e : Nat) : Bool :=
  improvesOn (bestFrom b₀ f e) (f e)

/-- The callback's wait counter at the end of epoch `e`: the length of the
run of consecutive non-improving epochs ending at `e`. -/
def waitFrom (b₀ : Option Rat) (f : Nat → Rat) : Nat → Nat
  | 0 => if improvedFrom b₀ f 0 then 0 else 1
  | e + 1 => if improvedFrom b₀ f (e + 1) then 0 else waitFrom b₀ f e + 1

/-- The wait counter just before epoch `e` starts. -/
def prevWaitFrom (b₀ : Option Rat) (f : Nat → Rat) : Nat → Nat
  | 0 => 0
  | e + 1 => waitFrom b₀ f e

/-- Validation loss per epoch from a recorded list (epochs beyond the list
are never reached by the runs below). -/
def lossesOf (l : List Rat) : Nat → Rat :=
  fun e => l.getD e 0

/-- Validation losses of the SimpleRNN fit, from the notebook's stored
epoch logs (0.4371, 0.4366, 0.4364, 0.4602, 0.5164), written in units of
1/10000 — early stopping only compares monitored values, so a common
positive scale factor does not change the trace. -/
def rnn_val_loss : List Rat :=
  [4371, 4366, 4364, 4602, 5164]

/-- Validation losses of the LSTM fit, from the notebook's stored logs
(0.3558, 0.3172, 0.3055, 0.3379, 0.3490), in units of 1/10000. -/
def lstm_val_loss : List Rat :=
  [3558, 3172, 3055, 3379, 3490]

/-- Validation losses of the GRU fit, from the notebook's stored logs
(0.3581, 0.3231), in units of 1/10000. -/
def gru_val_loss : List Rat :=
  [3581, 3231]

/-- Validation losses of the LSTM+Attention fit, from the notebook's
stored logs (0.3283, 0.2830, 0.3176, 0.3553), in units of 1/10000. -/
def att_val_loss : List Rat :=
  [3283, 2830, 3176, 3553]

/-- The recorded per-fit validation-loss sequences, in the order the
notebook trains the models. -/
def recorded_val_losses : List (List Rat) :=
  [rnn_val_loss, lstm_val_loss, gru_val_loss, att_val_loss]

/-- Epoch counts of a sequence of fits sharing the one reused callback:
each fit starts from the best value the previous fits left behind. -/
def notebookFitEpochs : List (List Rat) → Option Rat → List Nat
  | [], _ => []
  | l :: rest, b₀ =>
      fitEpochsRunFrom b₀ fitCfg (lossesOf l) ::
        notebookFitEpochs rest (fitBestAfter b₀ fitCfg (lossesOf l))

/-- The model a build statement constructs, if any. -/
def builtOf : Step → Option ModelId
  | .buildModel m => some m
  | _ => none

/-- The model a fit statement trains together with its arguments, if any. -/
def fitOf : Step → Option (ModelId × FitCfg)
  | .fitModel m cfg => some (m, cfg)
  | _ => none

/-- The model an evaluate statement tests, if any. -/
def evalOf : Step → Option ModelId
  | .evalModel m => some m
  | _ => none

/-- Is this statement the dataset load? -/
def isLoadStep : Step → Bool
  | .loadData => true
  | _ => false

/-- Is this statement the pad/truncate preprocessing? -/
def isPadStep : Step → Bool
  | .padSeqs => true
  | _ => false

/-- Is this statement the build of model `m`? -/
def isBuildStep (m : ModelId) : Step → Bool
  | .buildModel x => decide (x = m)
  | _ => false

/-- Is this statement the training of model `m`? -/
def isFitStep (m : ModelId) : Step → Bool
  | .fitModel x _ => decide (x = m)
  | _ => false

/-- Is this statement the evaluation of model `m`? -/
def isEvalStep (m : ModelId) : Step → Bool
  | .evalModel x => decide (x = m)
  | _ => false

/-- Is this statement the metrics print for model `m`? -/
def isPrintStep (m : ModelId) : Step → Bool
  | .printResults x => decide (x = m)
  | _ => false

/-- Embedding-table lookup of one token (the layer's gather on one index). -/
def embedLookup (emb : List (List Rat)) (w : Nat) : Option (List Rat) :=
  emb[w]?

/-- C1: the notebook constructs, trains, and evaluates exactly four model
configurations — SimpleRNN, LSTM, GRU, and LSTM with Attention — and each
one ends in a single-unit Dense layer with sigmoid activation, mapping a
length-`MAXLEN` input sequence to a single score. -/
theorem c1_four_binary_classifiers :
    notebookScript.filterMap builtOf =
      [ModelId.rnn, ModelId.lstm, ModelId.gru, ModelId.lstmAttention] ∧
    notebookScript.filterMap (fun st => (fitOf st).map Prod.fst) =
      [ModelId.rnn, ModelId.lstm, ModelId.gru, ModelId.lstmAttention] ∧
    notebookScript.filterMap evalOf =
      [ModelId.rnn, ModelId.lstm, ModelId.gru, ModelId.lstmAttention] ∧
    (∀ m : ModelId,
      ((modelFor m).graph.getLast?).map Node.op = some (.dense 1 "sigmoid")) ∧
    (∀ c : RnnCellKind,
      sequentialOutShape [MAXLEN] ((build_model c).graph.map Node.op) = some [1]) ∧
    (nodeShapes (build_model2 .lstm 32).graph).getLast? = some (some [1]) := by
  refine ⟨rfl, rfl, rfl, fun m => ?_, fun c => ?_, rfl⟩
  · cases m <;> rfl
  · cases c <;> rfl

/-- C5: both builder functions compile with the Adam optimizer, binary
cross-entropy loss, and accuracy as the only metric; the script's fit
statements are exactly one per model, all with the same arguments, whose
callback list is the single early-stopping callback monitoring `val_loss`. -/
theorem c5_compile_and_callbacks :
    (∀ c : RnnCellKind,
      (build_model c).cfg = ⟨"adam", "binary_crossentropy", ["accuracy"]⟩) ∧
    (∀ c : RnnCellKind, ∀ u : Nat,
      (build_model2 c u).cfg = ⟨"adam", "binary_crossentropy", ["accuracy"]⟩) ∧
    (∀ m : ModelId, (modelFor m).cfg = adam_bce_acc) ∧
    notebookScript.filterMap fitOf =
      [(ModelId.rnn, fitCfg), (ModelId.lstm, fitCfg),
       (ModelId.gru, fitCfg), (ModelId.lstmAttention, fitCfg)] ∧
    fitCfg.callbacks = [⟨"val_loss", 2⟩] := by
  refine ⟨fun c => ?_, fun c u => ?_, fun m => ?_, rfl, rfl⟩
  · cases c <;> rfl
  · cases c <;> rfl
  · cases m <;> rfl

/-- C6: in `build_model2`, the attention node is the framework layer
applied with the LSTM node's full output sequence as both query and value;
its output shape equals the LSTM output shape `(500, 32)`, it is then
flattened to `16000` and fed to the final single-unit sigmoid Dense layer;
the attention layer itself holds zero parameters. -/
theorem c6_attention_self_attention :
    (build_model2 .lstm 32).graph[2]? = some ⟨.rnn .lstm 32 true, [1], true⟩ ∧
    (build_model2 .lstm 32).graph[3]? = some ⟨.attention, [2, 2], true⟩ ∧
    (nodeShapes (build_model2 .lstm 32).graph)[2]? = some (some [MAXLEN, 32]) ∧
    (nodeShapes (build_model2 .lstm 32).graph)[3]? = some (some [MAXLEN, 32]) ∧
    (build_model2 .lstm 32).graph[4]? = some ⟨.flatten, [3], true⟩ ∧
    (nodeShapes (build_model2 .lstm 32).graph)[4]? = some (some [16000]) ∧
    (build_model2 .lstm 32).graph[5]? = some ⟨.dense 1 "sigmoid", [4], true⟩ ∧
    paramCountOp .attention [[MAXLEN, 32], [MAXLEN, 32]] = 0 :=
  ⟨rfl, rfl, rfl, rfl, rfl, rfl, rfl, rfl⟩

/-- C10: the LSTM+Attention model has 344,321 parameters, all trainable:
320,000 in the embedding, 8,320 in the LSTM, 16,001 in the final Dense,
and zero in the Input, Attention and Flatten nodes. -/
theorem c10_attention_model_params :
    paramsList (build_model2 .lstm 32).graph =
      some [0, 320000, 8320, 0, 0, 16001] ∧
    totalParams (build_model2 .lstm 32).graph = some 344321 ∧
    trainableParams (build_model2 .lstm 32).graph = some 344321 ∧
    (build_model2 .lstm 32).graph.all Node.trainable = true ∧
    VOCAB_SIZE * 32 = 320000 ∧
    4 * ((32 + 32) * 32 + 32) = 8320 ∧
    MAXLEN * 32 * 1 + 1 = 16001 :=
  ⟨rfl, rfl, rfl, rfl, rfl, rfl, rfl⟩

/-- C2: padding/truncation maps every row, train or test, to length
exactly `MAXLEN = 500`; it preserves the number of rows (so 25000 rows stay
25000 rows and the arrays have shape (25000, 500)); a long row is truncated
to 500 of its own tokens, and a short row is zero-padded up to 500. -/
theorem c2_pad_to_maxlen (xs : List Nat) (xss : List (List Nat)) :
    (pad_sequences MAXLEN xs).length = MAXLEN ∧
    (pad_all MAXLEN xss).length = xss.length ∧
    (∀ l ∈ pad_all MAXLEN xss, l.length = MAXLEN) ∧
    (MAXLEN ≤ xs.length → pad_sequences MAXLEN xs <:+ xs) ∧
    (xs.length < MAXLEN →
      pad_sequences MAXLEN xs = List.replicate (MAXLEN - xs.length) 0 ++ xs) := by
  have hlen : ∀ ys : List Nat, (pad_sequences MAXLEN ys).length = MAXLEN := by
    intro ys
    unfold pad_sequences
    split
    · simp only [List.length_drop]
      omega
    · simp only [List.length_append, List.length_replicate]
      omega
  refine ⟨hlen xs, by simp [pad_all], ?_, ?_, ?_⟩
  · intro l hl
    obtain ⟨ys, _, rfl⟩ := List.mem_map.1 hl
    exact hlen ys
  · intro h
    unfold pad_sequences
    rw [if_pos h]
    exact List.drop_suffix _ _
  · intro h
    unfold pad_sequences
    rw [if_neg (by omega)]

set_option maxRecDepth 4000 in
/-- Witness for C2 at concrete rows: a 600-token row is cut to a 500-token
suffix of itself, a 2-token row is left-padded with 498 zeros, and both
have final length 500. -/
theorem c2_pad_to_maxlen_witness :
    (pad_sequences MAXLEN (List.replicate 600 7)).length = MAXLEN ∧
    (pad_sequences MAXLEN [1, 2]).length = MAXLEN ∧
    pad_sequences MAXLEN (List.replicate 600 7) <:+ List.replicate 600 7 ∧
    pad_sequences MAXLEN [1, 2] = List.replicate (MAXLEN - 2) 0 ++ [1, 2] := by
  have h1 := c2_pad_to_maxlen (List.replicate 600 7) [[1, 2]]
  have h2 := c2_pad_to_maxlen [1, 2] [[1, 2]]
  refine ⟨h1.1, ?_, h1.2.2.2.1 (by decide), h2.2.2.2.2 (by decide)⟩
  exact h2.2.2.1 (pad_sequences MAXLEN [1, 2])
    (List.mem_map_of_mem _ (List.mem_singleton.2 rfl))

/-- C3: the script steps are strictly sequential in the fixed order load,
pad, build, train, evaluate, print: the pad step follows the load step and
precedes every fit; each model has exactly one fit, one evaluate and one
print statement, with its fit before its evaluate and its evaluate before
its print, and its build before its fit. -/
theorem c3_sequential_order :
    notebookScript.findIdx isLoadStep < notebookScript.findIdx isPadStep ∧
    (∀ m : ModelId,
      (notebookScript.filter (isFitStep m)).length = 1 ∧
      (notebookScript.filter (isEvalStep m)).length = 1 ∧
      (notebookScript.filter (isPrintStep m)).length = 1 ∧
      notebookScript.findIdx isPadStep < notebookScript.findIdx (isFitStep m) ∧
      notebookScript.findIdx (isBuildStep m) < notebookScript.findIdx (isFitStep m) ∧
      notebookScript.findIdx (isFitStep m) < notebookScript.findIdx (isEvalStep m) ∧
      notebookScript.findIdx (isEvalStep m) < notebookScript.findIdx (isPrintStep m)) := by
  refine ⟨by decide, fun m => ?_⟩
  cases m <;> exact ⟨rfl, rfl, rfl, by decide, by decide, by decide, by decide⟩

/-- C4: for every environment, after the whole script has run the data
variables still hold exactly the loaded-then-padded arrays, every one of
the four fit calls read those same training arrays and labels, and every
one of the four evaluate calls read those same test arrays and labels. -/
theorem c4_fixed_dataset (env : Env) :
    (runScript env).input_train =
      some (pad_all MAXLEN (load_data VOCAB_SIZE env.raw_train)) ∧
    (runScript env).input_test =
      some (pad_all MAXLEN (load_data VOCAB_SIZE env.raw_test)) ∧
    (runScript env).y_train = some env.y_train_raw ∧
    (runScript env).y_test = some env.y_test_raw ∧
    (∀ m : ModelId, (runScript env).fitRec m =
      some ⟨(runScript env).input_train, (runScript env).y_train, fitCfg⟩) ∧
    (∀ m : ModelId, ((runScript env).evalRec m).map
        (fun r => (r.data, r.labels)) =
      some ((runScript env).input_test, (runScript env).y_test)) := by
  refine ⟨rfl, rfl, rfl, rfl, fun m => ?_, fun m => ?_⟩
  · cases m <;> rfl
  · cases m <;> rfl

/-- C7: for every environment, each model's evaluate call returns exactly
the pair `[loss, accuracy]` in that order, and the four printed lines show
`results[0]` as the loss and `results[1]` as the accuracy, one line per
model, each printed with its own model's results. -/
theorem c7_eval_metrics_pair (env : Env) :
    (∀ m : ModelId, ((runScript env).evalRec m).map EvalRecord.results =
      some [env.lossOf m, env.metricOf m "accuracy"]) ∧
    (runScript env).printed =
      [(ModelId.rnn, ⟨env.lossOf .rnn, env.metricOf .rnn "accuracy"⟩),
       (ModelId.lstm, ⟨env.lossOf .lstm, env.metricOf .lstm "accuracy"⟩),
       (ModelId.gru, ⟨env.lossOf .gru, env.metricOf .gru "accuracy"⟩),
       (ModelId.lstmAttention,
        ⟨env.lossOf .lstmAttention, env.metricOf .lstmAttention "accuracy"⟩)] := by
  refine ⟨fun m => ?_, rfl⟩
  cases m <;> rfl

/-- C9: every token of every preprocessed row is below `VOCAB_SIZE`
(loading replaces out-of-vocabulary indices by `oov_char = 2` and padding
only inserts `0`), so the lookup into an embedding table of `VOCAB_SIZE`
rows always succeeds. -/
theorem c9_tokens_in_vocab (raw : List (List Nat)) (emb : List (List Rat))
    (hemb : emb.length = VOCAB_SIZE) :
    ∀ xs ∈ pad_all MAXLEN (load_data VOCAB_SIZE raw), ∀ w ∈ xs,
      w < VOCAB_SIZE ∧ (embedLookup emb w).isSome = true := by
  intro xs hxs w hw
  obtain ⟨ys, hys, rfl⟩ := List.mem_map.1 hxs
  have hw' : w = 0 ∨ w ∈ ys := by
    revert hw
    unfold pad_sequences
    split <;> intro hw
    · exact Or.inr (List.mem_of_mem_drop hw)
    · rcases List.mem_append.1 hw with h | h
      · exact Or.inl (List.eq_of_mem_replicate h)
      · exact Or.inr h
  have hlt : w < VOCAB_SIZE := by
    rcases hw' with rfl | hmem
    · decide
    · obtain ⟨ws, _, rfl⟩ := List.mem_map.1 hys
      obtain ⟨v, _, rfl⟩ := List.mem_map.1 hmem
      unfold load_word
      split
      · assumption
      · decide
  refine ⟨hlt, ?_⟩
  unfold embedLookup
  have hlt' : w < emb.length := by omega
  simp [List.getElem?_eq_getElem hlt']

set_option maxRecDepth 20000 in
/-- Witness for C9 at a concrete dataset and table: the stored review
`[3, 50000]` loads as `[3, 2]`, pads to 500 tokens, and the token `2` is
both below the vocabulary bound and found in a 10000-row table. -/
theorem c9_tokens_in_vocab_witness :
    (2 : Nat) < VOCAB_SIZE ∧
    (embedLookup (List.replicate VOCAB_SIZE ([] : List Rat)) 2).isSome = true := by
  have h := c9_tokens_in_vocab [[3, 50000]] (List.replicate VOCAB_SIZE [])
    (by simp)
  exact h (pad_sequences MAXLEN [3, 2]) (by decide) 2 (by decide)

/-- The fit loop runs at most as many epochs as its fuel allows. -/
lemma esLoop_le (f : Nat → Rat) (p : Nat) :
    ∀ fuel epoch best wait, esLoop f p fuel epoch best wait ≤ epoch + fuel := by
  intro fuel
  induction fuel with
  | zero =>
      intro epoch best wait
      simp [esLoop]
  | succ n ih =>
      intro epoch best wait
      rw [esLoop]
      split
      · have := ih (epoch + 1) (some (f epoch)) 0
        omega
      · split
        · omega
        · have := ih (epoch + 1) best (wait + 1)
          omega

/-- The fit loop's result is at least its starting epoch counter. -/
lemma le_esLoop (f : Nat → Rat) (p : Nat) :
    ∀ fuel epoch best wait, epoch ≤ esLoop f p fuel epoch best wait := by
  intro fuel
  induction fuel with
  | zero =>
      intro epoch best wait
      simp [esLoop]
  | succ n ih =>
      intro epoch best wait
      rw [esLoop]
      split
      · have := ih (epoch + 1) (some (f epoch)) 0
        omega
      · split
        · omega
        · have := ih (epoch + 1) best (wait + 1)
          omega

/-- With any fuel at all, the fit loop completes at least one epoch. -/
lemma one_le_esLoop (f : Nat → Rat) (p : Nat) :
    ∀ fuel epoch best wait, 1 ≤ fuel →
      epoch + 1 ≤ esLoop f p fuel epoch best wait := by
  intro fuel epoch best wait hf
  cases fuel with
  | zero => omega
  | succ n =>
      rw [esLoop]
      split
      · have := le_esLoop f p n (epoch + 1) (some (f epoch)) 0
        omega
      · split
        · omega
        · have := le_esLoop f p n (epoch + 1) best (wait + 1)
          omega

/-- After an improving epoch the best monitored value is that epoch's. -/
lemma bestFrom_succ_improved (b₀ : Option Rat) (f : Nat → Rat) (e : Nat)
    (h : improvedFrom b₀ f e = true) : bestFrom b₀ f (e + 1) = some (f e) := by
  unfold improvedFrom improvesOn at h
  cases hb : bestFrom b₀ f e with
  | none => simp [bestFrom, hb]
  | some b =>
      rw [hb] at h
      have hlt : f e < b := of_decide_eq_true h
      simp [bestFrom, hb, min_eq_right hlt.le]

/-- After a non-improving epoch the best monitored value is unchanged. -/
lemma bestFrom_succ_not_improved (b₀ : Option Rat) (f : Nat → Rat) (e : Nat)
    (h : improvedFrom b₀ f e = false) : bestFrom b₀ f (e + 1) = bestFrom b₀ f e := by
  unfold improvedFrom improvesOn at h
  cases hb : bestFrom b₀ f e with
  | none => rw [hb] at h; cases h
  | some b =>
      rw [hb] at h
      have hle : b ≤ f e := le_of_not_lt (of_decide_eq_false h)
      simp [bestFrom, hb, min_eq_left hle]

/-- The wait counter resets to zero at an improving epoch. -/
lemma waitFrom_improved (b₀ : Option Rat) (f : Nat → Rat) (e : Nat)
    (h : improvedFrom b₀ f e = true) : waitFrom b₀ f e = 0 := by
  cases e <;> simp [waitFrom, h]

/-- The wait counter increments at a non-improving epoch. -/
lemma waitFrom_not_improved (b₀ : Option Rat) (f : Nat → Rat) (e : Nat)
    (h : improvedFrom b₀ f e = false) :
    waitFrom b₀ f e = prevWaitFrom b₀ f e + 1 := by
  cases e <;> simp [waitFrom, prevWaitFrom, h]

/-- `List.find?` steps over a head that satisfies the predicate. -/
lemma find?_cons_true (q : Nat → Bool) (a : Nat) (l : List Nat)
    (h : q a = true) : List.find? q (a :: l) = some a := by
  rw [List.find?, h]

/-- `List.find?` skips a head that fails the predicate. -/
lemma find?_cons_false (q : Nat → Bool) (a : Nat) (l : List Nat)
    (h : q a = false) : List.find? q (a :: l) = List.find? q l := by
  rw [List.find?, h]

/-- The fit loop under early stopping returns one past the first epoch at
which the wait counter reaches the patience, and otherwise exhausts its
fuel.  Invariants: the loop's best and wait state agree with `bestFrom`
and `prevWaitFrom`, and the loop has not yet stopped. -/
lemma esLoop_char (b₀ : Option Rat) (f : Nat → Rat) (p : Nat) (hp : 1 ≤ p) :
    ∀ fuel epoch best wait, best = bestFrom b₀ f epoch →
      wait = prevWaitFrom b₀ f epoch → wait < p →
      esLoop f p fuel epoch best wait =
        (((List.range' epoch fuel).find?
            (fun e => decide (p ≤ waitFrom b₀ f e))).map (fun e => e + 1)).getD
          (epoch + fuel) := by
  intro fuel
  induction fuel with
  | zero =>
      intro epoch best wait _ _ _
      simp [esLoop, List.range']
  | succ n ih =>
      intro epoch best wait hbest hwait hlt
      have hrange : List.range' epoch (n + 1) = epoch :: List.range' (epoch + 1) n := rfl
      rw [esLoop, hrange]
      by_cases himp : improvedFrom b₀ f epoch = true
      · have hcond : improvesOn best (f epoch) = true := by
          rw [hbest]; exact himp
        rw [if_pos hcond]
        have hwa : waitFrom b₀ f epoch = 0 := waitFrom_improved b₀ f epoch himp
        have hpred : (fun e : Nat => decide (p ≤ waitFrom b₀ f e)) epoch = false := by
          show decide (p ≤ waitFrom b₀ f epoch) = false
          rw [hwa, decide_eq_false_iff_not]
          omega
        rw [find?_cons_false (fun e : Nat => decide (p ≤ waitFrom b₀ f e)) epoch
          (List.range' (epoch + 1) n) hpred]
        have harith : epoch + (n + 1) = (epoch + 1) + n := by omega
        rw [harith]
        exact ih (epoch + 1) (some (f epoch)) 0
          (bestFrom_succ_improved b₀ f epoch himp).symm
          (by simp [prevWaitFrom, hwa]) (by omega)
      · have himp' : improvedFrom b₀ f epoch = false := by
          cases hh : improvedFrom b₀ f epoch
          · rfl
          · exact absurd hh himp
        have hcond : ¬ (improvesOn best (f epoch) = true) := by
          rw [hbest]
          show ¬ (improvedFrom b₀ f epoch = true)
          rw [himp']
          simp
        rw [if_neg hcond]
        have hwa : waitFrom b₀ f epoch = wait + 1 := by
          rw [waitFrom_not_improved b₀ f epoch himp', ← hwait]
        by_cases hstop : p ≤ wait + 1
        · rw [if_pos hstop]
          have hpred : (fun e : Nat => decide (p ≤ waitFrom b₀ f e)) epoch = true := by
            show decide (p ≤ waitFrom b₀ f epoch) = true
            rw [hwa, decide_eq_true_eq]
            omega
          rw [find?_cons_true (fun e : Nat => decide (p ≤ waitFrom b₀ f e)) epoch
            (List.range' (epoch + 1) n) hpred]
          rfl
        · rw [if_neg hstop]
          have hpred : (fun e : Nat => decide (p ≤ waitFrom b₀ f e)) epoch = false := by
            show decide (p ≤ waitFrom b₀ f epoch) = false
            rw [hwa, decide_eq_false_iff_not]
            omega
          rw [find?_cons_false (fun e : Nat => decide (p ≤ waitFrom b₀ f e)) epoch
            (List.range' (epoch + 1) n) hpred]
          have harith : epoch + (n + 1) = (epoch + 1) + n := by omega
          rw [harith]
          exact ih (epoch + 1) best (wait + 1)
            (hbest.trans (bestFrom_succ_not_improved b₀ f epoch himp').symm)
            (by simp [prevWaitFrom, hwa]) (by omega)

/-- Characterization of the number of epochs run from a carried-in best:
one past the first epoch whose wait counter reaches the patience, else the
full epoch budget. -/
lemma epochsRunFrom_char (b₀ : Option Rat) (f : Nat → Rat) (p E : Nat)
    (hp : 1 ≤ p) :
    epochsRunFrom b₀ E p f =
      (((List.range E).find? (fun e => decide (p ≤ waitFrom b₀ f e))).map
        (fun e => e + 1)).getD E := by
  have h := esLoop_char b₀ f p hp E 0 b₀ 0 rfl rfl (by omega)
  rw [Nat.zero_add] at h
  rw [List.range_eq_range']
  exact h

/-- The wait counter is positive exactly at non-improving epochs. -/
lemma one_le_waitFrom_iff (b₀ : Option Rat) (f : Nat → Rat) (e : Nat) :
    1 ≤ waitFrom b₀ f e ↔ improvedFrom b₀ f e = false := by
  cases e with
  | zero => cases h : improvedFrom b₀ f 0 <;> simp [waitFrom, h]
  | succ d => cases h : improvedFrom b₀ f (d + 1) <;> simp [waitFrom, h]

/-- The wait counter reaches 2 exactly when the monitored loss has failed
to improve at two consecutive epochs, the second being the current one. -/
lemma two_le_waitFrom_iff (b₀ : Option Rat) (f : Nat → Rat) (e : Nat) :
    2 ≤ waitFrom b₀ f e ↔
      ∃ d, e = d + 1 ∧ improvedFrom b₀ f d = false ∧
        improvedFrom b₀ f (d + 1) = false := by
  cases e with
  | zero =>
      constructor
      · intro h2
        have h0 : waitFrom b₀ f 0 ≤ 1 := by
          cases h : improvedFrom b₀ f 0 <;> simp [waitFrom, h]
        exact absurd h2 (by omega)
      · rintro ⟨d, hd, -, -⟩
        exact absurd hd (by omega)
  | succ k =>
      constructor
      · intro h2
        by_cases h : improvedFrom b₀ f (k + 1) = true
        · rw [waitFrom_improved b₀ f (k + 1) h] at h2
          omega
        · have h' : improvedFrom b₀ f (k + 1) = false := by
            cases hh : improvedFrom b₀ f (k + 1)
            · rfl
            · exact absurd hh h
          refine ⟨k, rfl, ?_, h'⟩
          have hstep : waitFrom b₀ f (k + 1) = waitFrom b₀ f k + 1 := by
            simp [waitFrom, h']
          rw [hstep] at h2
          exact (one_le_waitFrom_iff b₀ f k).1 (by omega)
      · rintro ⟨d', hd', hA, hB⟩
        have hk : d' = k := by omega
        rw [hk] at hA hB
        have h1 : 1 ≤ waitFrom b₀ f k := (one_le_waitFrom_iff b₀ f k).2 hA
        have hstep : waitFrom b₀ f (k + 1) = waitFrom b₀ f k + 1 := by
          simp [waitFrom, hB]
        omega

/-- C8 counterexample: on the notebook's recorded run, the reused
callback's best after the SimpleRNN and LSTM fits is 0.3055 (3055 in the
scaled units), and from that carried best the GRU fit stops after exactly
2 epochs even though its second epoch improved on its first
(0.3231 < 0.3581) — so it had not failed for two consecutive epochs to
improve on its own run's losses; and with a per-fit fresh best (the
claim's reading) the same recorded losses do not stop the fit at 2
epochs. -/
theorem c8_counterexample :
    fitBestAfter (fitBestAfter none fitCfg (lossesOf rnn_val_loss)) fitCfg
      (lossesOf lstm_val_loss) = some 3055 ∧
    fitEpochsRunFrom (some 3055) fitCfg (lossesOf gru_val_loss) = 2 ∧
    lossesOf gru_val_loss 1 < lossesOf gru_val_loss 0 ∧
    fitEpochsRunFrom none fitCfg (lossesOf gru_val_loss) ≠ 2 := by
  refine ⟨rfl, rfl, by decide, by decide⟩

/-- C8 (amended): every fit call runs at least 1 and at most `epochs = 10`
epochs; it stops early exactly one past the first epoch at which the
monitored validation loss has failed to improve for two consecutive epochs
on the best value the reused callback has seen — which, after the first
fit, includes the best validation loss of the earlier fits, because the
notebook reuses one `EarlyStopping` object and keras 3 carries its best
across fits; on the notebook's recorded validation losses this yields
epoch counts [5, 5, 2, 4], so the count need not be 10. -/
theorem c8_early_stopping_epochs (b₀ : Option Rat) (f : Nat → Rat) :
    1 ≤ fitEpochsRunFrom b₀ fitCfg f ∧
    fitEpochsRunFrom b₀ fitCfg f ≤ 10 ∧
    fitEpochsRunFrom b₀ fitCfg f =
      (((List.range 10).find? (fun e => decide (2 ≤ waitFrom b₀ f e))).map
        (fun e => e + 1)).getD 10 ∧
    (∀ e, 2 ≤ waitFrom b₀ f e ↔
      ∃ d, e = d + 1 ∧ improvedFrom b₀ f d = false ∧
        improvedFrom b₀ f (d + 1) = false) ∧
    notebookFitEpochs recorded_val_losses none = [5, 5, 2, 4] := by
  refine ⟨?_, ?_, ?_, fun e => two_le_waitFrom_iff b₀ f e, ?_⟩
  · exact one_le_esLoop f 2 10 0 b₀ 0 (by omega)
  · exact esLoop_le f 2 10 0 b₀ 0
  · exact epochsRunFrom_char b₀ f 2 10 (by omega)
  · rfl

end RNNIMDB
